import Mathlib

/-! Shallow embedding of the EduCrate backend (src/backend/server.py).

Python strings are modeled as Lean strings, with the Python string operations
re-implemented over the underlying character lists so that every definition
evaluates by kernel reduction.  MongoDB collections are modeled as Lean lists,
`datetime.utcnow()` as an explicit clock / timestamp parameter, and
`uuid.uuid4()` as a caller-supplied identifier.  Learning styles, moods and
content types are kept as raw strings, exactly as the source compares them
(the Python enums are `str` mixins compared by value).  Code that can raise
returns `Option` / `Except`, carrying the name of the Python exception or its
message.
-/

namespace EduCrate

/-! ## Python string primitives -/

/-- Worker for Python `str.split()` (whitespace split, dropping empty
fragments), at the character-list level; `acc` holds the current word
reversed. -/
def wsSplitAux : List Char → List Char → List (List Char)
  | [], acc => if acc = [] then [] else [acc.reverse]
  | c :: rest, acc =>
    if c.isWhitespace then
      (if acc = [] then [] else [acc.reverse]) ++ wsSplitAux rest []
    else wsSplitAux rest (c :: acc)

/-- Python `s.split()`: split on runs of whitespace, no empty fragments. -/
def pySplitWs (s : String) : List String :=
  (wsSplitAux s.data []).map String.mk

/-- Worker for Python `str.split(sep)`: fuel-driven scan emitting the chunk
accumulated in `acc` (reversed) whenever `sep` matches. -/
def splitOnAux (sep : List Char) : Nat → List Char → List Char → List (List Char)
  | _, [], acc => [acc.reverse]
  | 0, s, acc => [acc.reverse ++ s]
  | fuel+1, c :: rest, acc =>
    if sep.isPrefixOf (c :: rest) then
      acc.reverse :: splitOnAux sep fuel ((c :: rest).drop sep.length) []
    else
      splitOnAux sep fuel rest (c :: acc)

/-- Python `s.split(sep)` for an explicit separator.  The separators used in
this codebase are never empty. -/
def pySplitOn (s sep : String) : List String :=
  if sep = "" then [s]
  else (splitOnAux sep.data s.data.length s.data []).map String.mk

/-- Worker for Python `str.replace`: fuel-driven left-to-right scan replacing
every non-overlapping occurrence of `pat` by `rep`. -/
def replaceAux (pat rep : List Char) : Nat → List Char → List Char
  | _, [] => []
  | 0, s => s
  | fuel+1, c :: rest =>
    if pat.isPrefixOf (c :: rest) then
      rep ++ replaceAux pat rep fuel ((c :: rest).drop pat.length)
    else c :: replaceAux pat rep fuel rest

/-- Python `s.replace(pat, rep)`.  The patterns used in this codebase are
never empty; the empty-pattern case is returned unchanged. -/
def pyReplace (s pat rep : String) : String :=
  if pat = "" then s
  else String.mk (replaceAux pat.data rep.data s.data.length s.data)

/-- Python `s.strip()`: whitespace removed from both ends. -/
def pyStrip (s : String) : String :=
  String.mk (((s.data.dropWhile Char.isWhitespace).reverse.dropWhile
    Char.isWhitespace).reverse)

/-- Python `s.strip(chars)` for an explicit character set. -/
def pyStripChars (bad : List Char) (s : String) : String :=
  String.mk (((s.data.dropWhile (bad.contains ·)).reverse.dropWhile
    (bad.contains ·)).reverse)

/-- Python `len(s)`: the number of code points. -/
def pyLen (s : String) : Nat := s.data.length

/-- Python `s[:n]`: the first `n` code points. -/
def pyTake (s : String) (n : Nat) : String := String.mk (s.data.take n)

/-- Python `s.lower()`. -/
def pyLower (s : String) : String := String.mk (s.data.map Char.toLower)

/-- Substring test at the character-list level: `containsSub hay needle` is
true exactly when `needle` occurs contiguously inside `hay`. -/
def containsSub : List Char → List Char → Bool
  | [], needle => needle.isEmpty
  | c :: rest, needle => needle.isPrefixOf (c :: rest) || containsSub rest needle

/-- Python `needle in hay` on strings. -/
def strContains (hay needle : String) : Bool := containsSub hay.data needle.data

/-- Python `"sep".join(parts)`. -/
def pyJoin (sep : String) (parts : List String) : String :=
  String.mk (List.intercalate sep.data (parts.map String.data))

/-- Python `list(set(xs))`: deduplication.  CPython's set iteration order is
implementation-defined; first-occurrence order is fixed here.  Every property
proved about it below (membership, distinctness, size) is order-independent. -/
def pyDedup : List String → List String
  | [] => []
  | x :: rest => x :: (pyDedup rest).filter (fun y => y ≠ x)

/-- Worker for Python `str.title()`; the flag records whether the previous
character was alphabetic. -/
def pyTitleAux : Bool → List Char → List Char
  | _, [] => []
  | prevAlpha, c :: rest =>
    (if prevAlpha then c.toLower else c.toUpper) :: pyTitleAux c.isAlpha rest

/-- Python `s.title()` (ASCII behaviour), used by the audio-script generator. -/
def pyTitle (s : String) : String := String.mk (pyTitleAux false s.data)

/-! ## LocalAIService.generate_summary -/

/-- The source's local variable `key_sentences`:
`[s.strip() + '.' for s in sentences[:3] if len(s.strip()) > 20]` over
`sentences = content.replace('\n', ' ').split('. ')` — note that the source
truncates to the first 3 sentences before filtering by length. -/
def key_sentences (content : String) : List String :=
  (((pySplitOn (pyReplace content "\n" " ") ". ").take 3).filter
      (fun s => 20 < pyLen (pyStrip s))).map (fun s => pyStrip s ++ ".")

/-- The style dispatch of `LocalAIService.generate_summary`, as a function of
the already-computed key-sentence list (the Python `if/elif/elif/else` chain;
the `else` branch is the kinesthetic one). -/
def format_summary (content style : String) (ks : List String) : String :=
  if style = "visual" then
    "📊 Visual Summary:\n\n"
      ++ pyJoin "\n" (ks.map (fun s => "• " ++ s))
      ++ "\n\n" ++ "🎯 Key Concept: " ++ (pySplitOn content ".").headD "" ++ "."
  else if style = "auditory" then
    "🎵 Audio-Friendly Summary:\n\n"
      ++ "Listen carefully to these main points:\n"
      ++ pyJoin "\n" (ks.enum.map (fun p => toString (p.1 + 1) ++ ". " ++ p.2))
      ++ "\n\nRemember to repeat these concepts aloud for better retention."
  else if style = "textual" then
    "📖 Detailed Text Summary:\n\n"
      ++ pyTake content 300 ++ "...\n\n"
      ++ "Key Takeaways:\n"
      ++ pyJoin "\n" (ks.map (fun s => "- " ++ s))
  else
    "🏃‍♂️ Hands-On Summary:\n\n"
      ++ "Practice these concepts through:\n"
      ++ pyJoin "\n" (ks.map (fun s =>
          "✋ Activity: Apply '" ++ (pySplitOn s " ").headD "" ++ "' in a real scenario"))

/-- `LocalAIService.generate_summary(content, style)` (the simulated latency
and logging are effect-free and omitted). -/
def generate_summary (content style : String) : String :=
  format_summary content style (key_sentences content)

/-! ## LocalAIService.generate_flashcards -/

structure Flashcard where
  question : String
  answer : String
  hint : String
deriving DecidableEq

/-- The sentence pool of `generate_flashcards`:
`[s.strip() for s in content.replace('\n', ' ').split('.') if len(s.strip()) > 10]`. -/
def flashSentences (content : String) : List String :=
  ((pySplitOn (pyReplace content "\n" " ") ".").map pyStrip).filter
    (fun s => 10 < pyLen s)

/-- The source's local variables `key_word` of a sentence:
`words[len(words)//2]` over `words = sentence.split()`. -/
def middleWord (sentence : String) : String :=
  (pySplitWs sentence).getD ((pySplitWs sentence).length / 2) ""

/-- The fill-in-the-blank card built from one sentence: the middle word is
blanked out of the sentence and becomes the answer. -/
def sentenceCard (sentence : String) : Flashcard :=
  { question := "Fill in the blank: " ++ pyReplace sentence (middleWord sentence) "____",
    answer := middleWord sentence,
    hint := "Think about: " ++ pyTake sentence 50 ++ "..." }

/-- One iteration of the sentence loop of `generate_flashcards`: sentences
with more than 5 words yield a fill-in-the-blank card. -/
def sentenceCardStep (acc : List Flashcard) (sentence : String) : List Flashcard :=
  if 5 < (pySplitWs sentence).length then acc ++ [sentenceCard sentence] else acc

/-- The generic concept card built from one word of the content. -/
def padCard (word : String) : Flashcard :=
  { question := "What is " ++ word ++ "?",
    answer := "A key concept related to the main topic",
    hint := "Context: ..." ++ word ++ "..." }

/-- One iteration of the padding loop of `generate_flashcards`: a generic
card for every word longer than 5 characters, while fewer than `count` cards
exist.  The source performs no duplicate check. -/
def padCardStep (count : Nat) (acc : List Flashcard) (word : String) : List Flashcard :=
  if 5 < pyLen word ∧ acc.length < count then acc ++ [padCard word] else acc

/-- `LocalAIService.generate_flashcards(content, count=10)`. -/
def generate_flashcards (content : String) (count : Nat := 10) : List Flashcard :=
  let fromSentences := ((flashSentences content).take count).foldl sentenceCardStep []
  let padded :=
    if fromSentences.length < count then
      ((pySplitWs content).take 20).foldl (padCardStep count) fromSentences
    else fromSentences
  padded.take count

/-! ## LocalAIService.generate_audio_script and generate_visual_description -/

/-- `LocalAIService.generate_audio_script(content, style="conversational")`. -/
def generate_audio_script (content : String) (style : String := "conversational") :
    String :=
  "\n🎧 Audio Lesson Script - " ++ pyTitle style
    ++ " Style\n\n[INTRO - Upbeat tone]\nWelcome to your personalized audio lesson! Today we're exploring an exciting topic that will expand your knowledge.\n\n[MAIN CONTENT - Clear and engaging]\nLet me walk you through the key concepts:\n\n"
    ++ pyTake content 200
    ++ "...\n\n[INTERACTIVE ELEMENTS]\nNow, let's pause here. Can you think of how this applies to your daily life?\n\n[SUMMARY - Reinforcing tone]\nTo recap what we've learned:\n- The main concept focuses on practical applications\n- Key insights that you can implement immediately\n- Connections to broader learning objectives\n\n[OUTRO - Encouraging tone]\nGreat job completing this audio lesson! Remember to review these concepts and practice applying them.\n\n[TOTAL ESTIMATED DURATION: 8-12 minutes]\n"

/-- `LocalAIService.generate_visual_description(concept)`. -/
def generate_visual_description (concept : String) : String :=
  "\n🎨 Doodle-Style Visual Description\n\nMAIN CONCEPT: " ++ concept
    ++ "\n\nVisual Elements to Draw:\n━━━━━━━━━━━━━━━━━━━━\n\n🔵 CENTRAL IMAGE:\nDraw a large circle in the center representing the core concept of \""
    ++ concept
    ++ "\". \nUse bold, simple lines - think stick figures and basic shapes.\n\n🔗 CONNECTING BRANCHES:\nFrom the central circle, draw 3-4 wavy lines extending outward like tree branches. \nEach branch represents a key aspect of the concept.\n\n📝 TEXT BUBBLES:\nAdd small speech bubbles along each branch with 1-2 key words.\nUse fun, rounded bubble shapes - no perfect circles needed!\n\n🎯 HIGHLIGHT BOXES:\nDraw rectangular boxes around the most important terms.\nMake them look hand-drawn with slightly wobbly lines.\n\n🌟 DECORATIVE ELEMENTS:\nAdd small stars, arrows, and simple icons around the drawing.\nUse dashed lines to show connections between related ideas.\n\nCOLOR SUGGESTIONS:\n- Blue for main concepts\n- Orange for examples  \n- Green for benefits/positives\n- Purple for advanced topics\n\nDRAWING STYLE:\nKeep it simple and fun! This should look like creative notes, not perfect art.\nUse thick markers or bold pencils for visibility.\n\nESTIMATED DRAWING TIME: 5-7 minutes\n"

/-! ## LocalAIService.answer_question -/

/-- The style dispatch of `LocalAIService.answer_question`, as a function of
the question, the selected relevant context and the user's style (the `else`
branch is the kinesthetic one). -/
def formatAnswer (question relevant_context style : String) : String :=
  if style = "visual" then
    "\n📊 Visual Answer for: \"" ++ question
      ++ "\"\n\n🎯 Direct Answer:\nBased on the context, " ++ relevant_context
      ++ ".\n\n📈 Visual Breakdown:\n• Main Point → " ++ (pySplitWs question).getLastD ""
      ++ "\n• Supporting Evidence → " ++ (pySplitOn relevant_context ".").headD ""
      ++ "\n• Application → Think of this as a flowchart where each step builds on the previous\n\n🔍 Visual Memory Tip:\nImagine this concept as a diagram with interconnected parts!\n"
  else if style = "auditory" then
    "\n🎵 Audio Answer for: \"" ++ question
      ++ "\"\n\n🗣️ Listen to this explanation:\n" ++ relevant_context
      ++ ". \n\n🎧 Key Points to Remember:\n1. The main idea is...\n2. This connects to...\n3. You can apply this by...\n\n💭 Think-Aloud Strategy:\nTry explaining this answer out loud to reinforce your understanding!\n"
  else if style = "textual" then
    "\n📖 Detailed Written Answer:\n\nQuestion: " ++ question
      ++ "\n\nComprehensive Response:\n" ++ relevant_context
      ++ "\n\nAnalysis:\nThe key components of this answer include multiple layers of understanding. First, we must consider the foundational concepts, then build upon them with specific examples and applications.\n\nReferences:\nBased on the provided context and educational principles.\n"
  else
    "\n🏃‍♂️ Hands-On Answer for: \"" ++ question
      ++ "\"\n\n✋ Interactive Response:\n" ++ relevant_context
      ++ "\n\n🔧 Try This Activity:\n1. Write down the question on paper\n2. Create a physical model or gesture representing the answer\n3. Explain it to someone else using hand motions\n\n🎯 Practice Application:\nFind a real-world scenario where you can apply this knowledge immediately!\n"

/-- `LocalAIService.answer_question(question, context, user_style)`.
The source indexes `question.lower().split()[0]`; on a question with no
whitespace-delimited token this raises `IndexError`, modeled as `none`. -/
def answer_question (question context user_style : String) : Option String :=
  match pySplitWs (pyLower question) with
  | [] => none
  | w :: _ =>
    let context_sentences :=
      ((pySplitOn context ".").filter (fun s => strContains (pyLower s) w)).map pyStrip
    let relevant_context :=
      if context_sentences ≠ [] then pyJoin ". " (context_sentences.take 2)
      else pyTake context 100
    some (formatAnswer question relevant_context user_style)

/-! ## LocalAIService.suggest_study_approach -/

structure StudyStrategy where
  content_types : List String
  difficulty : String
  break_frequency : Nat
  motivation : String
deriving DecidableEq

/-- The `mood_strategies` dictionary; the final `else` is the
`.get(mood, mood_strategies[MoodType.FOCUSED])` default. -/
def mood_strategies (mood : String) : StudyStrategy :=
  if mood = "focused" then
    ⟨["summary", "flashcards", "quiz"], "high", 25,
      "Perfect! Your focused state is ideal for deep learning."⟩
  else if mood = "relaxed" then
    ⟨["audio_lesson", "visual_doodle"], "medium", 15,
      "Great time to absorb information naturally and calmly."⟩
  else if mood = "energetic" then
    ⟨["flashcards", "quiz", "visual_doodle"], "medium-high", 20,
      "Channel that energy into active learning!"⟩
  else if mood = "stressed" then
    ⟨["audio_lesson", "summary"], "low", 10,
      "Take it easy. Learning should be enjoyable, not stressful."⟩
  else if mood = "curious" then
    ⟨["summary", "visual_doodle", "audio_lesson"], "medium", 30,
      "Your curiosity is a superpower! Explore and discover."⟩
  else
    ⟨["summary", "flashcards", "quiz"], "high", 25,
      "Perfect! Your focused state is ideal for deep learning."⟩

structure StudySuggestions where
  recommended_content_types : List String
  study_duration : Int
  difficulty_adjustment : String
  break_intervals : Nat
  motivation_message : String
  specific_tips : List String
  estimated_completion : String
deriving DecidableEq

/-- `LocalAIService.suggest_study_approach(mood, time_available, topic)`.
`time_available` is a Python `int`, modeled as `Int`. -/
def suggest_study_approach (mood : String) (time_available : Int) (topic : String) :
    StudySuggestions :=
  let strategy := mood_strategies mood
  { recommended_content_types := strategy.content_types,
    study_duration := min time_available 45,
    difficulty_adjustment := strategy.difficulty,
    break_intervals := strategy.break_frequency,
    motivation_message := strategy.motivation,
    specific_tips :=
      ["Start with " ++ strategy.content_types.headD "" ++ " content",
       "Take breaks every " ++ toString strategy.break_frequency ++ " minutes",
       "Focus on " ++ strategy.difficulty ++ " difficulty level"],
    estimated_completion := toString (min time_available 45) ++ " minutes for " ++ topic }

/-! ## LocalAIService.create_qa_index -/

structure QAIndex where
  topic : String
  key_terms : List String
  concepts : List String
  content_length : Nat
  indexed_sections : Nat
  searchable_elements : Nat
  index_created_at : Nat
  status : String
deriving DecidableEq

def qaIndicators : List String := ["is", "are", "means", "refers to"]

def qaPunct : List Char := ['.', ',', '!', '?', '(', ')', '[', ']']

/-- The source's local variable `potential_terms` of one sentence: the
punctuation-stripped forms of the sentence's words longer than 5 characters. -/
def potentialTerms (sentence : String) : List String :=
  ((pySplitWs (pyStrip sentence)).filter (fun w => 5 < pyLen w)).map
    (pyStripChars qaPunct)

/-- Whether a sentence contains one of the definition indicators. -/
def hasIndicator (sentence : String) : Bool :=
  qaIndicators.any (fun m => strContains (pyLower sentence) m)

/-- One iteration of the sentence loop of `create_qa_index`: collect up to two
potential terms, and the stripped sentence when it contains a definition
indicator. -/
def qaStep (acc : List String × List String) (sentence : String) :
    List String × List String :=
  (acc.1 ++ (potentialTerms sentence).take 2,
   if hasIndicator sentence then acc.2 ++ [pyStrip sentence] else acc.2)

/-- `LocalAIService.create_qa_index(content, topic)`; the internal
`datetime.utcnow()` is the explicit `now` argument. -/
def create_qa_index (content topic : String) (now : Nat) : QAIndex :=
  let sentences := pySplitOn (pyReplace content "\n" " ") "."
  let collected := sentences.foldl qaStep ([], [])
  { topic := topic,
    key_terms := (pyDedup collected.1).take 10,
    concepts := collected.2.take 5,
    content_length := pyLen content,
    indexed_sections := sentences.length,
    searchable_elements := (pyDedup collected.1).length,
    index_created_at := now,
    status := "ready_for_queries" }

/-! ## save_learning_assessment -/

/-- The `scores` dictionary of `save_learning_assessment`, in insertion
order. -/
def scoresList (v a t k : Nat) : List (String × Nat) :=
  [("visual", v), ("auditory", a), ("textual", t), ("kinesthetic", k)]

/-- Python `max(scores, key=scores.get)`: the first key attaining the maximal
value (`max` only replaces its candidate on a strictly greater value). -/
def pyMaxByValue : List (String × Nat) → String
  | [] => ""
  | p :: rest => (rest.foldl (fun best q => if best.2 < q.2 then q else best) p).1

/-- The dominant-style computation of `save_learning_assessment`: every style
scoring at least 7, and if none does, the first maximal style. -/
def dominantStyles (v a t k : Nat) : List String :=
  let ds := ((scoresList v a t k).filter (fun p => 7 ≤ p.2)).map Prod.fst
  if ds = [] then [pyMaxByValue (scoresList v a t k)] else ds

/-- A document of the `users` collection (fields of the `User` model; the
stored learning styles are raw strings). -/
structure StoredUser where
  id : String
  name : String
  email : String
  learning_styles : List String
  preferred_language : String
  timezone : String
deriving DecidableEq

/-- Mongo `update_one({"id": user_id}, {"$set": {"learning_styles": styles}})`:
overwrite the field on the first matching document. -/
def setLearningStyles : List StoredUser → String → List String → List StoredUser
  | [], _, _ => []
  | u :: rest, uid, styles =>
    if u.id = uid then { u with learning_styles := styles } :: rest
    else u :: setLearningStyles rest uid styles

/-- A document of the `assessments` collection. -/
structure AssessmentRecord where
  user_id : String
  visual_score : Nat
  auditory_score : Nat
  textual_score : Nat
  kinesthetic_score : Nat
  timestamp : Nat
deriving DecidableEq

/-- Endpoint `save_learning_assessment`: compute the dominant styles,
overwrite the user's `learning_styles`, append the assessment record, and
return the response's `dominant_styles`. -/
def save_learning_assessment (users : List StoredUser)
    (assessments : List AssessmentRecord) (uid : String) (v a t k : Nat)
    (now : Nat) : List StoredUser × List AssessmentRecord × List String :=
  let dominant := dominantStyles v a t k
  (setLearningStyles users uid dominant,
   assessments ++ [⟨uid, v, a, t, k, now⟩],
   dominant)

/-! ## create_learning_kit (the kit orchestrator) -/

/-- A `ProcessingStatus` log entry. -/
structure ProcessingStatus where
  step : String
  status : String
  message : String
  timestamp : Nat
deriving DecidableEq

inductive ContentPayload
  | text (s : String)
  | cards (cs : List Flashcard)
deriving DecidableEq

/-- The per-item `metadata` dictionary (one shape per content type). -/
inductive ContentMeta
  | word_count (n : Nat) (generated_at : Nat)
  | card_count (n : Nat) (generated_at : Nat)
  | duration_estimate (d : String) (generated_at : Nat)
  | complexity (level : String) (generated_at : Nat)
deriving DecidableEq

/-- One element of a kit's `content_items` (a plain dictionary in the
source; its `type` and `learning_style` are the enum values as strings). -/
structure ContentItem where
  type : String
  learning_style : String
  content : ContentPayload
  metadata : ContentMeta
deriving DecidableEq

/-- The `LearningKit` model (success path). -/
structure LearningKit where
  id : String
  user_id : String
  topic : String
  source_content : String
  content_items : List ContentItem
  learning_styles : List String
  difficulty_level : String
  estimated_time : Nat
  created_at : Nat
  processing_logs : List ProcessingStatus
deriving DecidableEq

/-- The reduced `error_kit` dictionary persisted on the failure path: only
these seven fields exist, in particular no content items. -/
structure FailedKitRecord where
  id : String
  user_id : String
  topic : String
  status : String
  error : String
  processing_logs : List ProcessingStatus
  created_at : Nat
deriving DecidableEq

/-- A document of the `learning_kits` collection. -/
inductive KitRecord
  | completed (kit : LearningKit)
  | failed (record : FailedKitRecord)
deriving DecidableEq

/-- The endpoint's outcome: the success JSON body, or an `HTTPException`
surfaced as a server error. -/
inductive KitResponse
  | success (kit : LearningKit) (content_count : Nat)
      (processing_logs : List ProcessingStatus) (qa_index : QAIndex)
  | serverError (status_code : Nat) (detail : String)
deriving DecidableEq

structure KitCreateRequest where
  user_id : String
  topic : String
  source_content : String
  target_styles : Option (List String)
deriving DecidableEq

/-- The generator calls made inside the orchestrator's `try` block.  Each may
fail with an exception message, which is how the fault-injection scenarios of
the specification are expressed; `realGenerators` below never fails. -/
structure Generators where
  gen_summary : String → String → Except String String
  gen_flashcards : String → Nat → Except String (List Flashcard)
  gen_audio_script : String → Except String String
  gen_visual_description : String → Except String String
  gen_qa_index : String → String → Nat → Except String QAIndex

/-- The actual `LocalAIService` generators (total, never raising). -/
def realGenerators : Generators where
  gen_summary := fun content style => .ok (generate_summary content style)
  gen_flashcards := fun content count => .ok (generate_flashcards content count)
  gen_audio_script := fun content => .ok (generate_audio_script content)
  gen_visual_description := fun concept => .ok (generate_visual_description concept)
  gen_qa_index := fun content topic now => .ok (create_qa_index content topic now)

/-- The orchestrator's mutable state: the `processing_logs` and
`content_items` accumulators, plus a counter of `datetime.utcnow()` calls
(the `clock` function maps the counter to a timestamp). -/
structure PipeState where
  logs : List ProcessingStatus
  items : List ContentItem
  tick : Nat
deriving DecidableEq

/-- The orchestrator's local `add_log` closure. -/
def addLog (clock : Nat → Nat) (st : PipeState) (step status message : String) :
    PipeState :=
  { st with logs := st.logs ++ [⟨step, status, message, clock st.tick⟩],
            tick := st.tick + 1 }

/-- `content_items.append(...)`; the appended item receives the timestamp of
its `generated_at` metadata field. -/
def addItem (clock : Nat → Nat) (st : PipeState) (item : Nat → ContentItem) :
    PipeState :=
  { st with items := st.items ++ [item (clock st.tick)], tick := st.tick + 1 }

/-- One iteration of the per-style loop of `create_learning_kit`.  A style
that is none of textual / auditory / visual (in particular kinesthetic) only
logs the `started` entry and generates nothing. -/
def processStyle (g : Generators) (clock : Nat → Nat) (content topic : String)
    (st : PipeState) (style : String) : Except (PipeState × String) PipeState :=
  let st := addLog clock st (style ++ "_processing") "started"
      ("Processing content for " ++ style ++ " learners...")
  if style = "textual" then
    let st := addLog clock st "summarizing" "in_progress"
        "📖 Analyzing content and generating summary..."
    match g.gen_summary content style with
    | .error e => .error (st, e)
    | .ok summary =>
      let st := addItem clock st (fun ts =>
        ⟨"summary", style, .text summary, .word_count (pySplitWs summary).length ts⟩)
      let st := addLog clock st "summarizing" "completed" "✅ Summary generated successfully"
      let st := addLog clock st "flashcards" "in_progress" "🎴 Creating interactive flashcards..."
      match g.gen_flashcards content 10 with
      | .error e => .error (st, e)
      | .ok flashcards =>
        let st := addItem clock st (fun ts =>
          ⟨"flashcards", style, .cards flashcards, .card_count flashcards.length ts⟩)
        .ok (addLog clock st "flashcards" "completed"
          ("✅ Generated " ++ toString flashcards.length ++ " flashcards"))
  else if style = "auditory" then
    let st := addLog clock st "audio" "in_progress" "🎤 Generating audio lesson script..."
    match g.gen_audio_script content with
    | .error e => .error (st, e)
    | .ok audio_script =>
      let st := addItem clock st (fun ts =>
        ⟨"audio_lesson", style, .text audio_script, .duration_estimate "10-15 minutes" ts⟩)
      .ok (addLog clock st "audio" "completed" "✅ Audio lesson script generated")
  else if style = "visual" then
    let st := addLog clock st "doodle" "in_progress" "🎨 Creating visual doodle descriptions..."
    match g.gen_visual_description topic with
    | .error e => .error (st, e)
    | .ok visual_description =>
      let st := addItem clock st (fun ts =>
        ⟨"visual_doodle", style, .text visual_description, .complexity "medium" ts⟩)
      .ok (addLog clock st "doodle" "completed" "✅ Visual doodle description created")
  else
    .ok st

/-- The per-style loop: stops at the first generator exception, carrying the
state accumulated so far together with the exception message. -/
def processStyles (g : Generators) (clock : Nat → Nat) (content topic : String) :
    PipeState → List String → Except (PipeState × String) PipeState
  | st, [] => .ok st
  | st, style :: rest =>
    match processStyle g clock content topic st style with
    | .error e => .error e
    | .ok st' => processStyles g clock content topic st' rest

/-- The part of the `try` block up to and including the QA-indexing step:
initialization log, per-style loop, then the single `create_qa_index` call. -/
def runPipeline (g : Generators) (clock : Nat → Nat) (req : KitCreateRequest)
    (styles : List String) : Except (PipeState × String) (PipeState × QAIndex) :=
  let st := addLog clock ⟨[], [], 0⟩ "initialization" "started"
      ("Initializing kit creation for topic: " ++ req.topic)
  match processStyles g clock req.source_content req.topic st styles with
  | .error e => .error e
  | .ok st =>
    let st := addLog clock st "qa_index" "in_progress" "🔍 Building QA search index..."
    match g.gen_qa_index req.source_content req.topic (clock st.tick) with
    | .error e => .error ({ st with tick := st.tick + 1 }, e)
    | .ok qa_index =>
      .ok (addLog clock { st with tick := st.tick + 1 } "qa_index" "completed"
            "✅ QA index created and ready for queries", qa_index)

/-- Target-style resolution: a falsy `target_styles` (absent or the empty
list) falls back to the stored user's `learning_styles`, and to
`["textual"]` when the user does not exist. -/
def resolveStyles (users : List StoredUser) (req : KitCreateRequest) : List String :=
  match req.target_styles with
  | some (s :: rest) => s :: rest
  | _ =>
    match users.find? (fun u => u.id = req.user_id) with
    | some u => u.learning_styles
    | none => ["textual"]

/-- Endpoint `create_learning_kit`: returns the response and the list of
documents inserted into `learning_kits`.  On success the persisted kit's
`processing_logs` are a validated copy taken at construction time, so the
final `completion`/`success` entry appears only in the response's log list
(pydantic copies the list when the `LearningKit` is built). -/
def create_learning_kit (g : Generators) (clock : Nat → Nat)
    (users : List StoredUser) (req : KitCreateRequest) (kit_id : String) :
    KitResponse × List KitRecord :=
  let styles := resolveStyles users req
  match runPipeline g clock req styles with
  | .error (st, e) =>
    let st := addLog clock st "error" "failed" ("❌ Error during kit creation: " ++ e)
    (.serverError 500 ("Kit creation failed: " ++ e),
     [.failed ⟨kit_id, req.user_id, req.topic, "failed", e, st.logs, clock st.tick⟩])
  | .ok (st, qa_index) =>
    let kit : LearningKit :=
      { id := kit_id, user_id := req.user_id, topic := req.topic,
        source_content := req.source_content, content_items := st.items,
        learning_styles := styles, difficulty_level := "medium",
        estimated_time := st.items.length * 10,
        created_at := clock st.tick, processing_logs := st.logs }
    let st := addLog clock { st with tick := st.tick + 1 } "completion" "success"
        ("🎉 Learning kit '" ++ req.topic ++ "' created successfully!")
    (.success kit st.items.length st.logs qa_index, [.completed kit])

/-! ## ask_question (QA sessions endpoint) -/

/-- A document of the `qa_sessions` collection. -/
structure QASessionRecord where
  id : String
  user_id : String
  kit_id : String
  question : String
  answer : String
  context : String
  timestamp : Nat
deriving DecidableEq

/-- The outcome of `ask_question`: an explicit `HTTPException`, an uncaught
Python exception (which FastAPI surfaces as a 500 internal server error), or
an answer. -/
inductive AskOutcome
  | httpError (status_code : Nat) (detail : String)
  | unhandledError (exc : String)
  | answered (answer : String) (session_id : String)
deriving DecidableEq

def kitRecordId : KitRecord → String
  | .completed kit => kit.id
  | .failed record => record.id

/-- Endpoint `ask_question`: looks up the kit (404 when absent), then the
user — a missing user makes `user.get(...)` raise `AttributeError` on
`None`; an empty stored style list makes the `[0]` index raise `IndexError`;
a failure-kit has no `source_content` key (`KeyError`).  Returns the outcome
and the resulting `qa_sessions` collection. -/
def ask_question (users : List StoredUser) (kits : List KitRecord)
    (sessions : List QASessionRecord) (user_id kit_id question session_id : String)
    (now : Nat) : AskOutcome × List QASessionRecord :=
  match kits.find? (fun r => kitRecordId r = kit_id) with
  | none => (.httpError 404 "Learning kit not found", sessions)
  | some r =>
    match users.find? (fun u => u.id = user_id) with
    | none => (.unhandledError "AttributeError", sessions)
    | some user =>
      match user.learning_styles with
      | [] => (.unhandledError "IndexError", sessions)
      | user_style :: _ =>
        match r with
        | .failed _ => (.unhandledError "KeyError", sessions)
        | .completed kit =>
          let context := kit.source_content
          match answer_question question context user_style with
          | none => (.unhandledError "IndexError", sessions)
          | some answer =>
            (.answered answer session_id,
             sessions ++ [⟨session_id, user_id, kit_id, question, answer, context, now⟩])

/-! ## Claim-side constructions (from the specification's wording) and
projections used by the theorems -/

/-- The key-sentence selection as claim C5 words it: the first 3 qualifying
sentences (trimmed length > 20) of the whole sentence split — filtering
before truncation, unlike the source. -/
def claimed_key_sentences (content : String) : List String :=
  (((pySplitOn (pyReplace content "\n" " ") ". ").filter
      (fun s => 20 < pyLen (pyStrip s))).take 3).map (fun s => pyStrip s ++ ".")

/-- The summary generator as claim C5 words it. -/
def claimed_summary (content style : String) : String :=
  format_summary content style (claimed_key_sentences content)

/-- The flashcard generator as claim C6 words it: padding tokens are
deduplicated ("duplicate tokens are skipped"). -/
def claimed_flashcards (content : String) (count : Nat) : List Flashcard :=
  let fromSentences := ((flashSentences content).take count).foldl sentenceCardStep []
  let padded :=
    if fromSentences.length < count then
      (pyDedup ((pySplitWs content).take 20)).foldl (padCardStep count) fromSentences
    else fromSentences
  padded.take count

/-- The key-term candidates of the QA indexer, written as one comprehension:
at most two punctuation-stripped forms of the tokens longer than 5 characters
of each sentence, in sentence order. -/
def qaTermCandidates (content : String) : List String :=
  (pySplitOn (pyReplace content "\n" " ") ".").flatMap
    (fun sentence => (potentialTerms sentence).take 2)

/-- The concept-sentence candidates of the QA indexer, written as one
comprehension: the stripped sentences containing a definition indicator. -/
def qaConceptSentences (content : String) : List String :=
  ((pySplitOn (pyReplace content "\n" " ") ".").filter hasIndicator).map pyStrip

/-- First-maximum selection in enumeration order, as claim C2 words the
tie-break. -/
def firstMaxStyle (v a t k : Nat) : String :=
  if a ≤ v ∧ t ≤ v ∧ k ≤ v then "visual"
  else if t ≤ a ∧ k ≤ a then "auditory"
  else if k ≤ t then "textual"
  else "kinesthetic"

/-- The thresholded style list, as claim C2 words it: every style whose score
is at least 7, in enumeration order. -/
def thresholdStyles (v a t k : Nat) : List String :=
  (if 7 ≤ v then ["visual"] else []) ++ (if 7 ≤ a then ["auditory"] else [])
    ++ (if 7 ≤ t then ["textual"] else []) ++ (if 7 ≤ k then ["kinesthetic"] else [])

/-- The log statuses the source ever appends. -/
def allowedStatuses : List String :=
  ["started", "in_progress", "completed", "failed", "success"]

/-- Every entry of the list carries one of the statuses the source appends. -/
def StatusesOK (l : List ProcessingStatus) : Prop :=
  ∀ e ∈ l, e.status ∈ allowedStatuses

/-- `StatusesOK` for the log list inside either constructor of a pipeline
step result. -/
def PipeLogsOK : Except (PipeState × String) PipeState → Prop
  | .ok st => StatusesOK st.logs
  | .error p => StatusesOK p.1.logs

def respLogs : KitResponse → List ProcessingStatus
  | .success _ _ logs _ => logs
  | .serverError _ _ => []

def recordLogs : KitRecord → List ProcessingStatus
  | .completed kit => kit.processing_logs
  | .failed record => record.processing_logs

def respKit? : KitResponse → Option LearningKit
  | .success kit _ _ _ => some kit
  | .serverError _ _ => none

def isAnswered : AskOutcome → Bool
  | .answered _ _ => true
  | _ => false

def isNotFound : AskOutcome → Bool
  | .httpError 404 _ => true
  | _ => false

/-- Identity clock used by concrete scenarios: the n-th `utcnow()` call
returns n. -/
def clk : Nat → Nat := fun n => n

/-- The source content of the specification's worked scenario. -/
def mlContent : String := "ML is great. It learns from data. It improves over time."

/-- The request of the specification's worked scenario:
`target_styles=[textual]`. -/
def reqML : KitCreateRequest :=
  { user_id := "u1", topic := "Machine Learning", source_content := mlContent,
    target_styles := some ["textual"] }

/-- Fault-injected generators: every generator raises with message "boom". -/
def gFail : Generators where
  gen_summary := fun _ _ => .error "boom"
  gen_flashcards := fun _ _ => .error "boom"
  gen_audio_script := fun _ => .error "boom"
  gen_visual_description := fun _ => .error "boom"
  gen_qa_index := fun _ _ _ => .error "boom"

/-- The pipeline state at the moment the summary generator of `gFail` raises
on `reqML`: the initialization entry, the textual `started` entry and the
summarizing `in_progress` entry. -/
def stFail : PipeState :=
  { logs :=
      [⟨"initialization", "started",
        "Initializing kit creation for topic: Machine Learning", 0⟩,
       ⟨"textual_processing", "started",
        "Processing content for textual learners...", 1⟩,
       ⟨"summarizing", "in_progress",
        "📖 Analyzing content and generating summary...", 2⟩],
    items := [], tick := 3 }

/-- A stored user with an empty style list, as the repository's API test
creates one. -/
def demoUser : StoredUser :=
  { id := "u1", name := "Ada", email := "ada@example.com",
    learning_styles := [], preferred_language := "en", timezone := "UTC" }

/-- Content whose first sentence is short (9 characters) while the next three
are long: it separates the source's key-sentence rule from claim C5's. -/
def cexSummaryContent : String :=
  "Hi there. This particular sentence is long. Another suitably long sentence here. A third quite long sentence follows."

/-- A completed kit stored under id "k1", used by the question-answering
scenarios. -/
def kitK : LearningKit :=
  { id := "k1", user_id := "u1", topic := "ML",
    source_content := "ML is great. It learns from data.",
    content_items := [], learning_styles := ["textual"],
    difficulty_level := "medium", estimated_time := 0, created_at := 0,
    processing_logs := [] }

/-! ## Helper lemmas: strings -/

theorem string_data_ext (x y : String) (h : x.data = y.data) : x = y := by
  cases x; cases y; exact congrArg String.mk h

theorem append_ne_empty_left (x y : String) (hx : x ≠ "") : x ++ y ≠ "" := by
  intro h
  apply hx
  have hd : x.data ++ y.data = [] := by
    have := congrArg String.data h
    simpa [String.data_append] using this
  rcases List.append_eq_nil.mp hd with ⟨h1, _⟩
  exact string_data_ext x "" h1

theorem string_append_assoc (x y z : String) : x ++ y ++ z = x ++ (y ++ z) := by
  apply string_data_ext
  simp [String.data_append]

theorem containsSub_iff (hay needle : List Char) :
    containsSub hay needle = true ↔ needle <:+: hay := by
  induction hay with
  | nil => simp [containsSub, List.isEmpty_iff]
  | cons c rest ih =>
    simp [containsSub, ih, List.isPrefixOf_iff_prefix, List.infix_cons_iff]

theorem wsSplitAux_mem_ne_nil :
    ∀ (s acc g : List Char), g ∈ wsSplitAux s acc → g ≠ [] := by
  intro s
  induction s with
  | nil =>
    intro acc g hg
    by_cases h : acc = [] <;> simp [wsSplitAux, h] at hg
    subst hg
    simpa using h
  | cons c rest ih =>
    intro acc g hg
    by_cases hc : c.isWhitespace
    · simp [wsSplitAux, hc] at hg
      rcases hg with hg | hg
      · by_cases h : acc = [] <;> simp [h] at hg
        subst hg
        simpa using h
      · exact ih [] g hg
    · simp [wsSplitAux, hc] at hg
      exact ih (c :: acc) g hg

theorem wsSplitAux_mem_infix :
    ∀ (s acc g : List Char), g ∈ wsSplitAux s acc → g <:+: acc.reverse ++ s := by
  intro s
  induction s with
  | nil =>
    intro acc g hg
    by_cases h : acc = [] <;> simp [wsSplitAux, h] at hg
    subst hg
    simp
  | cons c rest ih =>
    intro acc g hg
    by_cases hc : c.isWhitespace
    · simp [wsSplitAux, hc] at hg
      rcases hg with hg | hg
      · by_cases h : acc = [] <;> simp [h] at hg
        subst hg
        exact ⟨[], c :: rest, by simp⟩
      · have := ih [] g hg
        simp at this
        exact this.trans ⟨acc.reverse ++ [c], [], by simp⟩
    · simp [wsSplitAux, hc] at hg
      have := ih (c :: acc) g hg
      simpa [List.append_assoc] using this

theorem replaceAux_of_infix (pat rep : List Char) (hp : pat ≠ []) :
    ∀ (fuel : Nat) (s : List Char), s.length ≤ fuel → pat <:+: s →
      ∃ a b, replaceAux pat rep fuel s = a ++ rep ++ b := by
  intro fuel
  induction fuel with
  | zero =>
    intro s hs hinf
    have hnil : s = [] := List.eq_nil_of_length_eq_zero (Nat.le_zero.mp hs)
    subst hnil
    exact absurd (List.infix_nil.mp hinf) hp
  | succ n ih =>
    intro s hs hinf
    match s with
    | [] => exact absurd (List.infix_nil.mp hinf) hp
    | c :: rest =>
      by_cases hpre : pat.isPrefixOf (c :: rest)
      · exact ⟨[], replaceAux pat rep n ((c :: rest).drop pat.length),
          by simp [replaceAux, hpre]⟩
      · have hrest : pat <:+: rest := by
          rcases List.infix_cons_iff.mp hinf with h | h
          · exact absurd (List.isPrefixOf_iff_prefix.mpr h) (by simpa using hpre)
          · exact h
        obtain ⟨a, b, hab⟩ := ih rest (by simpa using Nat.le_of_succ_le_succ hs) hrest
        exact ⟨c :: a, b, by simp [replaceAux, hpre, hab]⟩

/-! ## Helper lemmas: flashcards and the QA indexer -/

theorem middleWord_mem (sentence : String) (h : 5 < (pySplitWs sentence).length) :
    middleWord sentence ∈ pySplitWs sentence := by
  have hlt : (pySplitWs sentence).length / 2 < (pySplitWs sentence).length := by omega
  rw [middleWord, List.getD_eq_getElem _ _ hlt]
  exact List.getElem_mem _

theorem pySplitWs_mem_data (s w : String) (hw : w ∈ pySplitWs s) :
    w.data ≠ [] ∧ w.data <:+: s.data := by
  rw [pySplitWs] at hw
  obtain ⟨g, hg, rfl⟩ := List.mem_map.mp hw
  refine ⟨wsSplitAux_mem_ne_nil _ _ _ hg, ?_⟩
  simpa using wsSplitAux_mem_infix s.data [] g hg

theorem sentenceCard_shape (sentence : String)
    (h : 5 < (pySplitWs sentence).length) :
    strContains (sentenceCard sentence).question "____" = true ∧
    (sentenceCard sentence).answer ≠ "" := by
  obtain ⟨hne, hinf⟩ := pySplitWs_mem_data sentence _ (middleWord_mem sentence h)
  constructor
  · rw [strContains, containsSub_iff]
    have hpat : ¬ middleWord sentence = "" := fun hcon => hne (by simp [hcon])
    have hq : (sentenceCard sentence).question.data =
        "Fill in the blank: ".data ++
          replaceAux (middleWord sentence).data "____".data
            sentence.data.length sentence.data := by
      simp [sentenceCard, String.data_append, pyReplace, if_neg hpat]
    rw [hq]
    obtain ⟨a, b, hab⟩ := replaceAux_of_infix (middleWord sentence).data "____".data hne
      sentence.data.length sentence.data le_rfl hinf
    rw [hab]
    exact ⟨"Fill in the blank: ".data ++ a, b, by simp⟩
  · intro hcon
    apply hne
    have : (sentenceCard sentence).answer = middleWord sentence := rfl
    rw [this] at hcon
    simpa using congrArg String.data hcon

theorem mem_foldl_sentenceCardStep :
    ∀ (l : List String) (acc : List Flashcard) (c : Flashcard),
      c ∈ l.foldl sentenceCardStep acc →
      c ∈ acc ∨ ∃ s ∈ l, 5 < (pySplitWs s).length ∧ c = sentenceCard s := by
  intro l
  induction l with
  | nil => intro acc c hc; exact Or.inl hc
  | cons s rest ih =>
    intro acc c hc
    rcases ih (sentenceCardStep acc s) c hc with hmem | ⟨t, ht, hlen, rfl⟩
    · by_cases h : 5 < (pySplitWs s).length
      · rw [sentenceCardStep, if_pos h] at hmem
        rcases List.mem_append.mp hmem with h1 | h1
        · exact Or.inl h1
        · simp only [List.mem_singleton] at h1
          exact Or.inr ⟨s, by simp, h, h1⟩
      · rw [sentenceCardStep, if_neg h] at hmem
        exact Or.inl hmem
    · exact Or.inr ⟨t, by simp [ht], hlen, rfl⟩

theorem mem_foldl_padCardStep :
    ∀ (l : List String) (count : Nat) (acc : List Flashcard) (c : Flashcard),
      c ∈ l.foldl (padCardStep count) acc →
      c ∈ acc ∨ ∃ w ∈ l, 5 < pyLen w ∧ c = padCard w := by
  intro l
  induction l with
  | nil => intro count acc c hc; exact Or.inl hc
  | cons s rest ih =>
    intro count acc c hc
    rcases ih count (padCardStep count acc s) c hc with hmem | ⟨w, hw, hlen, rfl⟩
    · by_cases h : 5 < pyLen s ∧ acc.length < count
      · rw [padCardStep, if_pos h] at hmem
        rcases List.mem_append.mp hmem with h1 | h1
        · exact Or.inl h1
        · simp only [List.mem_singleton] at h1
          exact Or.inr ⟨s, by simp, h.1, h1⟩
      · rw [padCardStep, if_neg h] at hmem
        exact Or.inl hmem
    · exact Or.inr ⟨w, by simp [hw], hlen, rfl⟩

theorem pyDedup_nodup (l : List String) : (pyDedup l).Nodup := by
  induction l with
  | nil => simp [pyDedup]
  | cons x rest ih =>
    rw [pyDedup]
    refine List.nodup_cons.mpr ⟨?_, ih.filter _⟩
    intro hx
    have := (List.mem_filter.mp hx).2
    simp at this

theorem pyDedup_subset (l : List String) : ∀ y ∈ pyDedup l, y ∈ l := by
  induction l with
  | nil => simp [pyDedup]
  | cons x rest ih =>
    intro y hy
    rw [pyDedup] at hy
    rcases List.mem_cons.mp hy with rfl | hy
    · exact List.mem_cons_self _ _
    · exact List.mem_cons_of_mem _ (ih y (List.mem_filter.mp hy).1)

theorem foldl_qaStep :
    ∀ (sentences : List String) (ts cs : List String),
      sentences.foldl qaStep (ts, cs) =
        (ts ++ sentences.flatMap (fun s => (potentialTerms s).take 2),
         cs ++ (sentences.filter hasIndicator).map pyStrip) := by
  intro sentences
  induction sentences with
  | nil => intro ts cs; simp
  | cons s rest ih =>
    intro ts cs
    rw [List.foldl_cons]
    show (rest.foldl qaStep
      (ts ++ (potentialTerms s).take 2,
       if hasIndicator s then cs ++ [pyStrip s] else cs)) = _
    by_cases h : hasIndicator s
    · rw [if_pos h, ih]
      simp [List.filter_cons, h, List.append_assoc]
    · rw [if_neg h, ih]
      simp [List.filter_cons, h, List.append_assoc]

/-! ## Helper lemmas: orchestrator log statuses -/

theorem statusesOK_nil : StatusesOK [] := by
  intro e he
  exact absurd he (List.not_mem_nil e)

theorem statusesOK_addLog (clock : Nat → Nat) (st : PipeState)
    (step status message : String) (h : StatusesOK st.logs)
    (hs : status ∈ allowedStatuses) :
    StatusesOK (addLog clock st step status message).logs := by
  intro e he
  simp only [addLog, List.mem_append, List.mem_singleton] at he
  rcases he with h1 | h1
  · exact h e h1
  · subst h1
    exact hs

theorem addItem_logs (clock : Nat → Nat) (st : PipeState)
    (item : Nat → ContentItem) : (addItem clock st item).logs = st.logs := rfl

theorem statusesOK_processStyle (g : Generators) (clock : Nat → Nat)
    (content topic : String) (st : PipeState) (style : String)
    (h : StatusesOK st.logs) :
    PipeLogsOK (processStyle g clock content topic st style) := by
  simp only [processStyle]
  split_ifs with hT hA hV
  · rcases hgen : g.gen_summary content style with e | summary <;> simp only [hgen]
    · show StatusesOK _
      refine statusesOK_addLog _ _ _ _ _ ?_ (by decide)
      exact statusesOK_addLog _ _ _ _ _ h (by decide)
    · rcases hfc : g.gen_flashcards content 10 with e | fc <;> simp only [hfc]
      · show StatusesOK _
        refine statusesOK_addLog _ _ _ _ _ ?_ (by decide)
        refine statusesOK_addLog _ _ _ _ _ ?_ (by decide)
        rw [addItem_logs]
        refine statusesOK_addLog _ _ _ _ _ ?_ (by decide)
        exact statusesOK_addLog _ _ _ _ _ h (by decide)
      · show StatusesOK _
        refine statusesOK_addLog _ _ _ _ _ ?_ (by decide)
        rw [addItem_logs]
        refine statusesOK_addLog _ _ _ _ _ ?_ (by decide)
        refine statusesOK_addLog _ _ _ _ _ ?_ (by decide)
        rw [addItem_logs]
        refine statusesOK_addLog _ _ _ _ _ ?_ (by decide)
        exact statusesOK_addLog _ _ _ _ _ h (by decide)
  · rcases hgen : g.gen_audio_script content with e | audio <;> simp only [hgen]
    · show StatusesOK _
      refine statusesOK_addLog _ _ _ _ _ ?_ (by decide)
      exact statusesOK_addLog _ _ _ _ _ h (by decide)
    · show StatusesOK _
      refine statusesOK_addLog _ _ _ _ _ ?_ (by decide)
      rw [addItem_logs]
      refine statusesOK_addLog _ _ _ _ _ ?_ (by decide)
      exact statusesOK_addLog _ _ _ _ _ h (by decide)
  · rcases hgen : g.gen_visual_description topic with e | doodle <;> simp only [hgen]
    · show StatusesOK _
      refine statusesOK_addLog _ _ _ _ _ ?_ (by decide)
      exact statusesOK_addLog _ _ _ _ _ h (by decide)
    · show StatusesOK _
      refine statusesOK_addLog _ _ _ _ _ ?_ (by decide)
      rw [addItem_logs]
      refine statusesOK_addLog _ _ _ _ _ ?_ (by decide)
      exact statusesOK_addLog _ _ _ _ _ h (by decide)
  · show StatusesOK _
    exact statusesOK_addLog _ _ _ _ _ h (by decide)

theorem statusesOK_processStyles (g : Generators) (clock : Nat → Nat)
    (content topic : String) :
    ∀ (styles : List String) (st : PipeState), StatusesOK st.logs →
      PipeLogsOK (processStyles g clock content topic st styles) := by
  intro styles
  induction styles with
  | nil => intro st h; exact h
  | cons s rest ih =>
    intro st h
    rw [processStyles]
    rcases hg : processStyle g clock content topic st s with e | st' <;> simp only [hg]
    · have := statusesOK_processStyle g clock content topic st s h
      rw [hg] at this
      exact this
    · apply ih
      have := statusesOK_processStyle g clock content topic st s h
      rw [hg] at this
      exact this

theorem statusesOK_runPipeline (g : Generators) (clock : Nat → Nat)
    (req : KitCreateRequest) (styles : List String) :
    match runPipeline g clock req styles with
    | .ok p => StatusesOK p.1.logs
    | .error p => StatusesOK p.1.logs := by
  simp only [runPipeline]
  have h0 : StatusesOK (addLog clock ⟨[], [], 0⟩ "initialization" "started"
      ("Initializing kit creation for topic: " ++ req.topic)).logs :=
    statusesOK_addLog _ _ _ _ _ statusesOK_nil (by decide)
  rcases hps : processStyles g clock req.source_content req.topic
      (addLog clock ⟨[], [], 0⟩ "initialization" "started"
        ("Initializing kit creation for topic: " ++ req.topic)) styles with p | stp <;>
    simp only [hps]
  · have := statusesOK_processStyles g clock req.source_content req.topic styles _ h0
    rw [hps] at this
    exact this
  · have hok : StatusesOK stp.logs := by
      have := statusesOK_processStyles g clock req.source_content req.topic styles _ h0
      rw [hps] at this
      exact this
    have h1 : StatusesOK (addLog clock stp "qa_index" "in_progress"
        "🔍 Building QA search index...").logs :=
      statusesOK_addLog _ _ _ _ _ hok (by decide)
    rcases hq : g.gen_qa_index req.source_content req.topic
        (clock (addLog clock stp "qa_index" "in_progress"
          "🔍 Building QA search index...").tick) with e | qa <;> simp only [hq]
    · exact h1
    · exact statusesOK_addLog _ _ _ _ _ h1 (by decide)

/-! ## Helper lemmas: assessment scoring -/

theorem filter_scoresList (v a t k : Nat) :
    ((scoresList v a t k).filter (fun p => 7 ≤ p.2)).map Prod.fst =
      thresholdStyles v a t k := by
  by_cases h1 : 7 ≤ v <;> by_cases h2 : 7 ≤ a <;> by_cases h3 : 7 ≤ t <;>
    by_cases h4 : 7 ≤ k <;>
    simp [scoresList, thresholdStyles, List.filter, h1, h2, h3, h4]

theorem pyMax_scoresList (v a t k : Nat) :
    pyMaxByValue (scoresList v a t k) = firstMaxStyle v a t k := by
  simp only [pyMaxByValue, scoresList, List.foldl_cons, List.foldl_nil, firstMaxStyle]
  by_cases h1 : v < a <;> by_cases h2 : a < t <;> by_cases h3 : v < t <;>
    by_cases h4 : a < k <;> by_cases h5 : v < k <;> by_cases h6 : t < k <;>
    simp [h1, h2, h3, h4, h5, h6] <;> split_ifs <;> first | rfl | omega

theorem find?_setLearningStyles (users : List StoredUser) (uid : String)
    (styles : List String) :
    (setLearningStyles users uid styles).find? (fun u => u.id = uid) =
      (users.find? (fun u => u.id = uid)).map
        (fun u => { u with learning_styles := styles }) := by
  induction users with
  | nil => rfl
  | cons u rest ih =>
    by_cases h : u.id = uid
    · rw [setLearningStyles, if_pos h,
        List.find?_cons_of_pos _ (by simp [h]), List.find?_cons_of_pos _ (by simp [h])]
      rfl
    · rw [setLearningStyles, if_neg h,
        List.find?_cons_of_neg _ (by simp [h]), List.find?_cons_of_neg _ (by simp [h])]
      exact ih

/-! ## Claim theorems -/

/-- C1: whenever a per-style generation step or the indexing step raises, the
orchestrator persists exactly one reduced kit record — with only the fields
{id, user_id, topic, status="failed", error, processing_logs, created_at},
and in particular no content items (the `FailedKitRecord` type has no such
field) — whose log list is exactly the entries appended before the fault
followed by one final `failed` entry carrying the exception message, and the
caller receives a 500 server error instead of a success response. -/
theorem kit_failure_persists_reduced_record (g : Generators) (clock : Nat → Nat)
    (users : List StoredUser) (req : KitCreateRequest) (kit_id : String)
    (stf : PipeState) (e : String)
    (h : runPipeline g clock req (resolveStyles users req) = .error (stf, e)) :
    create_learning_kit g clock users req kit_id =
      (.serverError 500 ("Kit creation failed: " ++ e),
       [.failed ⟨kit_id, req.user_id, req.topic, "failed", e,
          stf.logs ++ [⟨"error", "failed",
            "❌ Error during kit creation: " ++ e, clock stf.tick⟩],
          clock (stf.tick + 1)⟩]) := by
  simp [create_learning_kit, h, addLog]

/-- Witness for C1: `gFail`'s summary generator raises "boom" on `reqML`,
and the persisted outcome is the reduced failure record. -/
theorem kit_failure_persists_reduced_record_witness :
    runPipeline gFail clk reqML (resolveStyles [] reqML) = .error (stFail, "boom") ∧
    create_learning_kit gFail clk [] reqML "kit-1" =
      (.serverError 500 ("Kit creation failed: " ++ "boom"),
       [.failed ⟨"kit-1", reqML.user_id, reqML.topic, "failed", "boom",
          stFail.logs ++ [⟨"error", "failed",
            "❌ Error during kit creation: " ++ "boom", clk stFail.tick⟩],
          clk (stFail.tick + 1)⟩]) :=
  ⟨by rfl,
   kit_failure_persists_reduced_record gFail clk [] reqML "kit-1" stFail "boom"
     (by rfl)⟩

/-- C2: for scores in 1..10 the dominant-style list is non-empty and equals
the styles scoring at least 7 (in enumeration order), falling back to the
single first-maximal style when no score reaches 7; the result overwrites the
stored user's `learning_styles` and is returned as `dominant_styles`. -/
theorem assessment_dominant_styles (v a t k : Nat)
    (users : List StoredUser) (assessments : List AssessmentRecord)
    (uid : String) (now : Nat)
    (hv : 1 ≤ v ∧ v ≤ 10) (ha : 1 ≤ a ∧ a ≤ 10)
    (ht : 1 ≤ t ∧ t ≤ 10) (hk : 1 ≤ k ∧ k ≤ 10) :
    dominantStyles v a t k ≠ [] ∧
    dominantStyles v a t k =
      (if thresholdStyles v a t k = [] then [firstMaxStyle v a t k]
       else thresholdStyles v a t k) ∧
    ((save_learning_assessment users assessments uid v a t k now).1.find?
        (fun u => u.id = uid)) =
      (users.find? (fun u => u.id = uid)).map
        (fun u => { u with learning_styles := dominantStyles v a t k }) ∧
    (save_learning_assessment users assessments uid v a t k now).2.2 =
      dominantStyles v a t k := by
  have h2 : dominantStyles v a t k =
      (if thresholdStyles v a t k = [] then [firstMaxStyle v a t k]
       else thresholdStyles v a t k) := by
    rw [dominantStyles, filter_scoresList, pyMax_scoresList]
  refine ⟨?_, h2, ?_, rfl⟩
  · rw [h2]
    split_ifs with hth
    · simp
    · exact hth
  · exact find?_setLearningStyles users uid (dominantStyles v a t k)

/-- Witness for C2 at the specification's own scenario
`scores = {visual: 8, auditory: 6, textual: 9, kinesthetic: 5}`. -/
theorem assessment_dominant_styles_witness :
    dominantStyles 8 6 9 5 ≠ [] ∧
    dominantStyles 8 6 9 5 =
      (if thresholdStyles 8 6 9 5 = [] then [firstMaxStyle 8 6 9 5]
       else thresholdStyles 8 6 9 5) ∧
    ((save_learning_assessment [demoUser] [] "u1" 8 6 9 5 0).1.find?
        (fun u => u.id = "u1")) =
      (([demoUser] : List StoredUser).find? (fun u => u.id = "u1")).map
        (fun u => { u with learning_styles := dominantStyles 8 6 9 5 }) ∧
    (save_learning_assessment [demoUser] [] "u1" 8 6 9 5 0).2.2 =
      dominantStyles 8 6 9 5 :=
  assessment_dominant_styles 8 6 9 5 [demoUser] [] "u1" 0
    (by decide) (by decide) (by decide) (by decide)

/-- C3: every successfully completed kit has
`estimated_time = 10 * content_item_count`; on the specification's worked
scenario (`target_styles=[textual]`, the ML source content) the kit has
exactly one Summary item and one Flashcards item and `estimated_time = 20`. -/
theorem kit_estimated_time_spec :
    (∀ (g : Generators) (clock : Nat → Nat) (users : List StoredUser)
        (req : KitCreateRequest) (kit_id : String),
      match (create_learning_kit g clock users req kit_id).1 with
      | .success kit _ _ _ => kit.estimated_time = 10 * kit.content_items.length
      | .serverError _ _ => True) ∧
    (respKit? (create_learning_kit realGenerators clk [] reqML "kit-1").1).map
      (fun kit => (kit.content_items.map ContentItem.type, kit.estimated_time)) =
      some (["summary", "flashcards"], 20) := by
  constructor
  · intro g clock users req kit_id
    rcases hrp : runPipeline g clock req (resolveStyles users req) with p | p
    · simp [create_learning_kit, hrp]
    · obtain ⟨st, qa⟩ := p
      simp [create_learning_kit, hrp]
      exact Nat.mul_comm st.items.length 10
  · decide

/-- C4 counterexample: a successful run appends a final `completion` entry
whose status is "success" (source line
`add_log("completion", "success", ...)`), outside the claimed enumeration
{started, in_progress, completed, failed}. -/
theorem kit_log_status_counterexample :
    ((respLogs (create_learning_kit realGenerators clk [] reqML "kit-1").1).map
        ProcessingStatus.status).getLastD "" = "success" ∧
    "success" ∉ (["started", "in_progress", "completed", "failed"] : List String) := by
  decide

/-- C4 (amended): every log entry appended during any kit-creation run —
in the response's log list and in every persisted record — has a status in
{started, in_progress, completed, failed, success}; the success path's final
"completion" entry carries status "success", which the claimed four-element
enumeration omits. -/
theorem kit_log_statuses_amended (g : Generators) (clock : Nat → Nat)
    (users : List StoredUser) (req : KitCreateRequest) (kit_id : String)
    (entry : ProcessingStatus)
    (h : entry ∈ respLogs (create_learning_kit g clock users req kit_id).1 ++
        ((create_learning_kit g clock users req kit_id).2.flatMap recordLogs)) :
    entry.status ∈ allowedStatuses := by
  have hrpOK := statusesOK_runPipeline g clock req (resolveStyles users req)
  rcases hrp : runPipeline g clock req (resolveStyles users req) with p | p
  · rw [hrp] at hrpOK
    obtain ⟨stf, e⟩ := p
    simp only [create_learning_kit, hrp, respLogs, recordLogs, List.flatMap_cons,
      List.flatMap_nil, List.append_nil, List.nil_append] at h
    exact statusesOK_addLog clock stf "error" "failed"
      ("❌ Error during kit creation: " ++ e) hrpOK (by decide) entry h
  · rw [hrp] at hrpOK
    obtain ⟨st, qa⟩ := p
    simp only [create_learning_kit, hrp, respLogs, recordLogs, List.flatMap_cons,
      List.flatMap_nil, List.append_nil, List.nil_append, List.mem_append] at h
    rcases h with h1 | h1
    · exact statusesOK_addLog clock { st with tick := st.tick + 1 }
        "completion" "success"
        ("🎉 Learning kit '" ++ req.topic ++ "' created successfully!")
        hrpOK (by decide) entry h1
    · exact hrpOK entry h1

/-- Witness for C4 (amended): the initialization entry of the worked
scenario's run is among the appended entries and carries an allowed status. -/
theorem kit_log_statuses_amended_witness :
    (⟨"initialization", "started",
      "Initializing kit creation for topic: Machine Learning", 0⟩ : ProcessingStatus) ∈
        respLogs (create_learning_kit realGenerators clk [] reqML "kit-1").1 ++
        ((create_learning_kit realGenerators clk [] reqML "kit-1").2.flatMap recordLogs) ∧
    (⟨"initialization", "started",
      "Initializing kit creation for topic: Machine Learning", 0⟩ : ProcessingStatus).status ∈
      allowedStatuses :=
  ⟨by decide,
   kit_log_statuses_amended realGenerators clk [] reqML "kit-1" _ (by decide)⟩

set_option maxRecDepth 8000 in
/-- C5 counterexample: on content whose first sentence is short, the source
(take the first 3 sentences, then keep the qualifying ones) differs from the
claim (take the first 3 qualifying sentences of the whole split): the source
keeps 2 sentences where the claim's rule keeps 3, and the generated visual
summaries differ. -/
theorem summary_first_three_counterexample :
    generate_summary cexSummaryContent "visual" ≠
      claimed_summary cexSummaryContent "visual" ∧
    key_sentences cexSummaryContent =
      ["This particular sentence is long.", "Another suitably long sentence here."] ∧
    claimed_key_sentences cexSummaryContent =
      ["This particular sentence is long.", "Another suitably long sentence here.",
       "A third quite long sentence follows.."] := by
  decide

/-- C5 (amended): the summary is built from the qualifying sentences
(trimmed length > 20 characters) among the first 3 sentences of the split —
not the first 3 qualifying sentences of the whole split: the key-sentence
list is a sublist of the formatted first-3-sentence window, has at most 3
elements, every element qualifying; and each style's structural marker is
present — the visual variant always contains the "🎯 Key Concept: " line. -/
theorem summary_markers_amended (content : String) :
    List.Sublist (key_sentences content)
      (((pySplitOn (pyReplace content "\n" " ") ". ").take 3).map
        (fun s => pyStrip s ++ ".")) ∧
    (key_sentences content).length ≤ 3 ∧
    (key_sentences content).all (fun s => decide (21 < pyLen s)) = true ∧
    (∃ p, generate_summary content "visual" =
      p ++ "🎯 Key Concept: " ++ (pySplitOn content ".").headD "" ++ ".") ∧
    (∃ q, generate_summary content "auditory" =
      "🎵 Audio-Friendly Summary:\n\n" ++ q) ∧
    (∃ p q, generate_summary content "textual" = p ++ "Key Takeaways:\n" ++ q) ∧
    (∃ q, generate_summary content "kinesthetic" =
      "🏃‍♂️ Hands-On Summary:\n\n" ++ q) := by
  refine ⟨?_, ?_, ?_, ?_, ?_, ?_, ?_⟩
  · rw [key_sentences]
    exact List.Sublist.map _ (List.filter_sublist _)
  · rw [key_sentences]
    simp only [List.length_map]
    exact le_trans (List.length_filter_le _ _) (by simp [List.length_take])
  · rw [List.all_eq_true]
    intro s hs
    rw [key_sentences] at hs
    obtain ⟨t, ht, rfl⟩ := List.mem_map.mp hs
    have h20 : 20 < pyLen (pyStrip t) := by
      have := (List.mem_filter.mp ht).2
      simpa using this
    have hlen : pyLen (pyStrip t ++ ".") = pyLen (pyStrip t) + 1 := by
      simp [pyLen, String.data_append]
    simp only [decide_eq_true_eq, hlen]
    omega
  · exact ⟨"📊 Visual Summary:\n\n"
      ++ pyJoin "\n" ((key_sentences content).map (fun s => "• " ++ s))
      ++ "\n\n", rfl⟩
  · refine ⟨"Listen carefully to these main points:\n"
      ++ pyJoin "\n" ((key_sentences content).enum.map
          (fun p => toString (p.1 + 1) ++ ". " ++ p.2))
      ++ "\n\nRemember to repeat these concepts aloud for better retention.", ?_⟩
    apply string_data_ext
    simp [generate_summary, format_summary, String.data_append, List.append_assoc]
  · exact ⟨"📖 Detailed Text Summary:\n\n" ++ pyTake content 300 ++ "...\n\n",
      pyJoin "\n" ((key_sentences content).map (fun s => "- " ++ s)), rfl⟩
  · refine ⟨"Practice these concepts through:\n"
      ++ pyJoin "\n" ((key_sentences content).map (fun s =>
          "✋ Activity: Apply '" ++ (pySplitOn s " ").headD "" ++ "' in a real scenario")), ?_⟩
    apply string_data_ext
    simp [generate_summary, format_summary, String.data_append, List.append_assoc]

/-- C6 counterexample: the padding loop does not skip duplicate tokens — on
content consisting of the same 7-character token twice, the source emits two
identical "What is ...?" cards where the claimed duplicate-skipping rule
emits one. -/
theorem flashcards_dedup_counterexample :
    (generate_flashcards "aaaaaaa aaaaaaa" 10).map Flashcard.question =
      ["What is aaaaaaa?", "What is aaaaaaa?"] ∧
    (claimed_flashcards "aaaaaaa aaaaaaa" 10).map Flashcard.question =
      ["What is aaaaaaa?"] ∧
    ¬ ((generate_flashcards "aaaaaaa aaaaaaa" 10).map Flashcard.question).Nodup := by
  decide

/-- C6 (amended): the generator returns at most `count` cards; every card is
either a sentence card — its question contains the blank marker "____" and
its answer (the removed middle token) is non-empty — or a generic padding
card "What is `w`?" for a token `w` longer than 5 characters among the first
20 tokens of the content.  Padding stops when `count` is reached or the pool
is exhausted (fewer cards is not an error), but duplicate tokens are NOT
skipped: each qualifying occurrence yields a card. -/
theorem flashcards_amended (content : String) (count : Nat) :
    (generate_flashcards content count).length ≤ count ∧
    (generate_flashcards content count).all (fun c =>
      (strContains c.question "____" && decide (c.answer ≠ ""))
      || ((pySplitWs content).take 20).any (fun w =>
            decide (5 < pyLen w) && (c == padCard w))) = true := by
  constructor
  · simp only [generate_flashcards]
    split_ifs <;> simp [List.length_take]
  · rw [List.all_eq_true]
    intro c hc
    simp only [generate_flashcards] at hc
    have hc2 := (List.take_sublist _ _).subset hc
    have hcF : c ∈ ((flashSentences content).take count).foldl sentenceCardStep [] ∨
        ∃ w ∈ (pySplitWs content).take 20, 5 < pyLen w ∧ c = padCard w := by
      by_cases hlen : (((flashSentences content).take count).foldl
          sentenceCardStep []).length < count
      · rw [if_pos hlen] at hc2
        exact mem_foldl_padCardStep _ _ _ _ hc2
      · rw [if_neg hlen] at hc2
        exact Or.inl hc2
    rcases hcF with h1 | ⟨w, hw, hlenw, rfl⟩
    · rcases mem_foldl_sentenceCardStep _ _ _ h1 with h2 | ⟨s, _, hlens, rfl⟩
      · exact absurd h2 (List.not_mem_nil c)
      · obtain ⟨hq, hans⟩ := sentenceCard_shape s hlens
        simp [hq, hans]
    · rw [Bool.or_eq_true]
      right
      rw [List.any_eq_true]
      exact ⟨w, hw, by simp [hlenw]⟩

/-- C7 counterexample: on the content "(cats).", the stored key term is the
punctuation-stripped form "cats" — which is not longer than 5 characters and
is not a token of the content at all — so key_terms does not consist of
"tokens longer than 5 characters". -/
theorem qa_key_terms_counterexample :
    (create_qa_index "(cats)." "plurals" 0).key_terms = ["cats"] ∧
    ¬ (5 < pyLen "cats") ∧
    "cats" ∉ pySplitWs "(cats)." := by
  decide

/-- C7 (amended): key_terms are the first at most 10 of the deduplicated
punctuation-stripped forms of the tokens longer than 5 characters (at most
two per sentence, in sentence order) — the stored element is the stripped
form, which need not itself be a token of length > 5 — and concepts are the
first at most 5 stripped sentences containing one of the markers "is",
"are", "means", "refers to" as a substring. -/
theorem qa_index_amended (content topic : String) (now : Nat) :
    (create_qa_index content topic now).key_terms =
      (pyDedup (qaTermCandidates content)).take 10 ∧
    (create_qa_index content topic now).key_terms.Nodup ∧
    (create_qa_index content topic now).key_terms.length ≤ 10 ∧
    (create_qa_index content topic now).concepts =
      (qaConceptSentences content).take 5 ∧
    (create_qa_index content topic now).concepts.length ≤ 5 := by
  have hfold := foldl_qaStep (pySplitOn (pyReplace content "\n" " ") ".") [] []
  simp only [List.nil_append] at hfold
  have hkey : (create_qa_index content topic now).key_terms =
      (pyDedup (qaTermCandidates content)).take 10 := by
    simp only [create_qa_index, hfold, qaTermCandidates]
  have hconc : (create_qa_index content topic now).concepts =
      (qaConceptSentences content).take 5 := by
    simp only [create_qa_index, hfold, qaConceptSentences]
  refine ⟨hkey, ?_, ?_, hconc, ?_⟩
  · rw [hkey]
    exact List.Nodup.sublist (List.take_sublist _ _) (pyDedup_nodup _)
  · rw [hkey]
    simp [List.length_take]
  · rw [hconc]
    simp [List.length_take]

/-- C8: for every mood of the enumeration and positive available time, the
advisor returns `study_duration = min(available_time, 45)`; for mood
"stressed" with 60 minutes it returns duration 45, difficulty "low" and the
content types ordered [audio_lesson, summary]. -/
theorem study_duration_cap (mood : String) (time_available : Int) (topic : String)
    (hm : mood ∈ ["focused", "relaxed", "energetic", "stressed", "curious"])
    (ht : 0 < time_available) :
    (suggest_study_approach mood time_available topic).study_duration =
      min time_available 45 ∧
    (suggest_study_approach "stressed" 60 topic).study_duration = 45 ∧
    (suggest_study_approach "stressed" 60 topic).difficulty_adjustment = "low" ∧
    (suggest_study_approach "stressed" 60 topic).recommended_content_types =
      ["audio_lesson", "summary"] := by
  refine ⟨rfl, ?_, ?_, ?_⟩
  · show min (60 : Int) 45 = 45
    decide
  · show ("low" : String) = "low"
    rfl
  · show (["audio_lesson", "summary"] : List String) = ["audio_lesson", "summary"]
    rfl

/-- Witness for C8 at the specification's scenario
`mood="stressed", available_time=60`. -/
theorem study_duration_cap_witness :
    (suggest_study_approach "stressed" 60 "general").study_duration = min 60 45 ∧
    (suggest_study_approach "stressed" 60 "general").study_duration = 45 ∧
    (suggest_study_approach "stressed" 60 "general").difficulty_adjustment = "low" ∧
    (suggest_study_approach "stressed" 60 "general").recommended_content_types =
      ["audio_lesson", "summary"] :=
  study_duration_cap "stressed" 60 "general" (by decide) (by decide)

/-- C9 counterexample: with the kit present but the referenced user absent,
the handler dereferences `None` (`user.get(...)`), raising AttributeError —
surfaced by FastAPI as a 500 internal error, not reported as a not-found
condition — although indeed no answer is produced and no session persisted. -/
theorem qa_user_miss_counterexample :
    (ask_question [] [.completed kitK] [] "u1" "k1" "What is ML" "s1" 0).1 =
      .unhandledError "AttributeError" ∧
    isNotFound (ask_question [] [.completed kitK] [] "u1" "k1" "What is ML" "s1" 0).1 =
      false ∧
    (ask_question [] [.completed kitK] [] "u1" "k1" "What is ML" "s1" 0).2 = [] := by
  decide

/-- C9 (amended): a missing kit is reported as a 404 not-found condition; a
missing user is NOT reported as not-found — the handler raises
AttributeError, surfaced as a server error; in both cases no answer is
produced and no QA session record is persisted. -/
theorem qa_lookup_miss_amended (users : List StoredUser) (kits : List KitRecord)
    (sessions : List QASessionRecord) (user_id kit_id question session_id : String)
    (now : Nat)
    (h : kits.find? (fun r => kitRecordId r = kit_id) = none ∨
         users.find? (fun u => u.id = user_id) = none) :
    (ask_question users kits sessions user_id kit_id question session_id now).2 =
      sessions ∧
    isAnswered
      (ask_question users kits sessions user_id kit_id question session_id now).1 =
      false ∧
    (match kits.find? (fun r => kitRecordId r = kit_id) with
     | none =>
        (ask_question users kits sessions user_id kit_id question session_id now).1 =
          .httpError 404 "Learning kit not found"
     | some _ =>
        (ask_question users kits sessions user_id kit_id question session_id now).1 =
          .unhandledError "AttributeError") := by
  rcases hk : kits.find? (fun r => kitRecordId r = kit_id) with _ | r
  · simp [ask_question, hk, isAnswered]
  · have hu : users.find? (fun u => u.id = user_id) = none := by
      rcases h with h | h
      · rw [hk] at h
        exact absurd h (by simp)
      · exact h
    simp [ask_question, hk, hu, isAnswered]

/-- Witness for C9 (amended): kit "k1" present, user "u1" absent. -/
theorem qa_lookup_miss_amended_witness :
    (ask_question [] [.completed kitK] [] "u1" "k1" "What is ML" "s1" 0).2 = [] ∧
    isAnswered (ask_question [] [.completed kitK] [] "u1" "k1" "What is ML" "s1" 0).1 =
      false ∧
    (ask_question [] [.completed kitK] [] "u1" "k1" "What is ML" "s1" 0).1 =
      .unhandledError "AttributeError" :=
  qa_lookup_miss_amended [] [.completed kitK] [] "u1" "k1" "What is ML" "s1" 0
    (Or.inr (by decide))

/-- C10: `answer_question` indexes `question.lower().split()[0]`, so a
question with no whitespace-delimited token fails with an index error
(modeled as `none`) before any answer is produced, whatever the context; on
every question with at least one token it never raises and the answer string
is non-empty. -/
theorem answer_question_token_guard (question context user_style : String) :
    match answer_question question context user_style with
    | none => pySplitWs (pyLower question) = []
    | some s => pySplitWs (pyLower question) ≠ [] ∧ s ≠ "" := by
  rcases h : pySplitWs (pyLower question) with _ | ⟨w, ws⟩
  · simp [answer_question, h]
  · simp only [answer_question, h]
    refine ⟨by simp, ?_⟩
    rw [formatAnswer]
    split_ifs <;> (repeat apply append_ne_empty_left) <;> decide

end EduCrate
